import Mathlib

/-!
Verification development for the now-playing detection and state-reconciliation
engine of the `now-playing` Raycast extension.

The definitions below are a shallow embedding of the TypeScript sources
`media-control.ts` (Media Probe, Eligibility Cache, Lookup Orchestrator) and
the menu-bar command module (Display Reconciler).  JavaScript values flowing
through the probe are modelled by `JsonVal`; strings stay `String`; nullable
values become `Option`; code that can throw is modelled with `Except` or with
explicit outcome types supplied by the environment.
-/

namespace NowPlaying

/-- A JSON value as produced by `JSON.parse` on the probe's stdout.  Arrays and
objects are both `typeof "object"` in JavaScript; named-key lookup on an array
returns `undefined` for every key consulted by this program, which the
accessors below reflect. -/
inductive JsonVal where
  | null
  | bool (b : Bool)
  | num (n : Int)
  | str (s : String)
  | arr (elems : List JsonVal)
  | obj (fields : List (String × JsonVal))

/-- A JSON object body: an association list of fields (keys unique, as produced
by `JSON.parse`). -/
abbrev Payload := List (String × JsonVal)

/-- JavaScript `s.trim()` (ASCII whitespace), defined over the character list
so that it evaluates by kernel reduction. -/
def jsTrim (s : String) : String :=
  ⟨((s.data.dropWhile Char.isWhitespace).reverse.dropWhile Char.isWhitespace).reverse⟩

/-- JavaScript `s.toLowerCase()` (ASCII case folding). -/
def jsToLower (s : String) : String :=
  ⟨s.data.map Char.toLower⟩

/-- `s.startsWith(pat)`. -/
def strStartsWith (s pat : String) : Bool :=
  pat.data.isPrefixOf s.data

/-- Whether `pat` occurs in some suffix of `l`. -/
def strIncludesAux (pat : List Char) : List Char → Bool
  | [] => pat.isEmpty
  | c :: rest => pat.isPrefixOf (c :: rest) || strIncludesAux pat rest

/-- `s.includes(pat)`. -/
def strIncludes (s pat : String) : Bool :=
  strIncludesAux pat.data s.data

/-- Property access `fields[key]`: `none` models `undefined`. -/
def lookupField (fields : Payload) (key : String) : Option JsonVal :=
  (fields.find? (fun f => f.1 == key)).map (fun f => f.2)

/-- JavaScript falsiness of a parsed JSON value (`!v`). -/
def jsFalsy : JsonVal → Bool
  | .null => true
  | .bool b => !b
  | .num n => n == 0
  | .str s => s == ""
  | .arr _ => false
  | .obj _ => false

/-- `typeof v === "object"` for a parsed JSON value. -/
def jsTypeofObject : JsonVal → Bool
  | .null => true
  | .arr _ => true
  | .obj _ => true
  | _ => false

/-- Truthiness of a nullable value (`undefined`/`null` are falsy). -/
def jsTruthy : Option JsonVal → Bool
  | none => false
  | some v => !jsFalsy v

/-- `readStringField(payload, key)` from `media-control.ts` and the menu-bar
module: a total accessor returning the trimmed string value of the field, and
`""` for a missing payload, non-object payload, missing field or non-string
field. -/
def readStringField (payload : Option JsonVal) (key : String) : String :=
  match payload with
  | some (.obj fields) =>
      match lookupField fields key with
      | some (.str s) => jsTrim s
      | _ => ""
  | _ => ""

/-- `asPayloadRecord(payload)`: `null` unless the value is a truthy
`typeof "object"` value, in which case it is returned as the record itself. -/
def asPayloadRecord (v : JsonVal) : Option JsonVal :=
  if jsFalsy v || !jsTypeofObject v then none else some v

/-- `formatNowPlayingSearchQuery`: `null` when the trimmed title is empty,
otherwise the title and the (possibly empty) artist joined by a space with
empty components filtered out. -/
def formatNowPlayingSearchQuery (payload : Option JsonVal) : Option String :=
  let title := readStringField payload "title"
  let artist := readStringField payload "artist"
  if title == "" then none
  else some (if artist == "" then title else title ++ " " ++ artist)

/-- `formatNowPlayingAlbumSearchQuery`: the trimmed album, or `null` when it is
empty. -/
def formatNowPlayingAlbumSearchQuery (payload : Option JsonVal) : Option String :=
  let album := readStringField payload "album"
  if album == "" then none else some album

/-- The lookup kinds of the orchestrator. -/
inductive LookupKind where
  | track
  | artist
  | album
deriving DecidableEq, Repr

/-- `queryForLookupKind`: a non-empty album is required for every kind; the
`album` kind queries the album name, the other kinds the title/artist query. -/
def queryForLookupKind (payload : Option JsonVal) (kind : LookupKind) : Option String :=
  let album := readStringField payload "album"
  if album == "" then none
  else if kind = LookupKind.album then formatNowPlayingAlbumSearchQuery payload
  else formatNowPlayingSearchQuery payload

/-! ## Media Probe (`inspectNowPlaying`) -/

/-- An error value caught while running one probe candidate: its `code`
property (as a string, `""` when absent) and its `message` text. -/
structure JsError where
  code : String
  message : String

/-- `isMissingBinaryError`: an `ENOENT` code, or a message containing
`ENOENT`, or a message whose lowercase form contains `not found`. -/
def isMissingBinaryError (e : JsError) : Bool :=
  if e.code == "ENOENT" then true
  else strIncludes e.message "ENOENT" || strIncludes (jsToLower e.message) "not found"

/-- What the environment does when one candidate binary is executed: either
the execution and the `JSON.parse` of its stdout both succeed, or an error is
thrown (including exec failures, timeouts and parse failures). -/
inductive AttemptOutcome where
  | success (payload : JsonVal) (stdout stderr : String)
  | failure (e : JsError)

/-- The probe/orchestrator result record (`MediaControlDebugInfo`). -/
structure MediaControlDebugInfo where
  query : Option String
  stdout : String
  stderr : String
  error : Option String
  payload : Option JsonVal
  binary : Option String
  attempts : List String
  isNotInstalled : Bool

/-- The six fixed candidate executable paths, in priority order. -/
def mediaControlCandidates : List String :=
  ["media-control",
   "/opt/homebrew/bin/media-control",
   "/usr/local/bin/media-control",
   "/opt/local/bin/media-control",
   "/opt/homebrew/opt/media-control/bin/media-control",
   "/usr/local/opt/media-control/bin/media-control"]

/-- `attempts.at(-1) || "Failed to execute media-control"`. -/
def lastAttemptError (attempts : List String) : String :=
  match attempts.getLast? with
  | some m => if m == "" then "Failed to execute media-control" else m
  | none => "Failed to execute media-control"

/-- The candidate loop of `inspectNowPlaying`: `rem` pairs each remaining
candidate path with its outcome; `attempts` and `missingBinaryAttempts` are
the accumulators; `totalCandidates` is `candidates.length`. -/
def inspectLoop (rem : List (String × AttemptOutcome)) (attempts : List String)
    (missingBinaryAttempts : Nat) (totalCandidates : Nat) : MediaControlDebugInfo :=
  match rem with
  | [] =>
      { query := none, stdout := "", stderr := "",
        error := some (lastAttemptError attempts),
        payload := none, binary := none, attempts := attempts,
        isNotInstalled := missingBinaryAttempts == totalCandidates }
  | (mediaControlBinary, outcome) :: rest =>
      match outcome with
      | .success payload out errOut =>
          { query := formatNowPlayingSearchQuery (some payload),
            stdout := out, stderr := errOut, error := none,
            payload := some payload, binary := some mediaControlBinary,
            attempts := attempts, isNotInstalled := false }
      | .failure e =>
          inspectLoop rest (attempts ++ [mediaControlBinary ++ ": " ++ e.message])
            (missingBinaryAttempts + (if isMissingBinaryError e then 1 else 0))
            totalCandidates

/-- `inspectNowPlaying`: short-circuits off macOS, otherwise runs the
candidate loop; `outcomes` supplies the environment's behaviour for each
candidate in order. -/
def inspectNowPlaying (onDarwin : Bool) (outcomes : List AttemptOutcome) :
    MediaControlDebugInfo :=
  if onDarwin then
    inspectLoop (mediaControlCandidates.zip outcomes) [] 0 mediaControlCandidates.length
  else
    { query := none, stdout := "", stderr := "",
      error := some "media-control is only supported on macOS",
      payload := none, binary := none, attempts := [], isNotInstalled := false }

/-- An attempt outcome that is a failure of the not-found class. -/
def attemptNotFound : AttemptOutcome → Bool
  | .failure e => isMissingBinaryError e
  | .success _ _ _ => false

/-- An attempt outcome that is a failure (of any class). -/
def attemptFailed : AttemptOutcome → Bool
  | .failure _ => true
  | .success _ _ _ => false

/-! ## Eligibility Cache (`saveEligibleMedia` / `readEligibleMedia`) -/

/-- `saveEligibleMedia`: serializes `{payload, cachedAt}` to the kind's key;
`persist` abstracts `LocalStorage.setItem` together with `JSON.stringify` and
may throw (`Except.error`); the `catch {}` swallows any failure. -/
def saveEligibleMedia (kind : LookupKind) (payload : Payload)
    (persist : LookupKind → Payload → Except String Unit) : Except String Unit :=
  match persist kind payload with
  | .ok _ => .ok ()
  | .error _ => .ok ()

/-- What `LocalStorage.getItem` on the kind's key produces: the call may
throw, return nothing, return a non-string value, or return a string together
with the result of `JSON.parse` on it. -/
inductive GetItemOutcome where
  | threw (msg : String)
  | absent
  | nonString
  | gotString (s : String) (parsed : Except String JsonVal)

/-- `readEligibleMedia`: any throw, absence, non-string value, empty string,
parse failure or schema mismatch yields `null`; otherwise the record's
`payload` field is returned through `asPayloadRecord`. -/
def readEligibleMedia (g : GetItemOutcome) : Except String (Option JsonVal) :=
  match g with
  | .threw _ => .ok none
  | .absent => .ok none
  | .nonString => .ok none
  | .gotString s parsed =>
      if s == "" then .ok none
      else
        match parsed with
        | .error _ => .ok none
        | .ok v =>
            if jsFalsy v || !jsTypeofObject v then .ok none
            else
              .ok (match v with
                | .obj fields =>
                    match lookupField fields "payload" with
                    | some w => asPayloadRecord w
                    | none => none
                | _ => none)

/-! ## Lookup Orchestrator (`inspectNowPlayingForLookup`) -/

/-- `inspectNowPlayingForLookup`, given the probe's result `info` and the
cache content `cached` for this kind (the value `readEligibleMedia` would
return).  The eligible live path also calls `saveEligibleMedia` (modelled
separately, best-effort). -/
def inspectNowPlayingForLookup (info : MediaControlDebugInfo)
    (cached : Option JsonVal) (kind : LookupKind)
    (allowCacheFallbackOnIneligible : Bool) : MediaControlDebugInfo :=
  let livePayload := info.payload.bind asPayloadRecord
  match livePayload with
  | some lp =>
      match queryForLookupKind (some lp) kind with
      | some liveQuery => { info with payload := some lp, query := some liveQuery }
      | none =>
          if allowCacheFallbackOnIneligible then
            match cached, queryForLookupKind cached kind with
            | some cp, some cachedQuery =>
                { info with payload := some cp, query := some cachedQuery }
            | _, _ => { info with payload := none, query := none }
          else { info with payload := none, query := none }
  | none =>
      match cached, queryForLookupKind cached kind with
      | some cp, some cachedQuery =>
          { info with payload := some cp, query := some cachedQuery }
      | _, _ => { info with payload := none, query := none }

/-! ## Payload Normalizer: artwork (`toArtworkDataUri` / `readArtworkUrl`) -/

/-- The case-insensitive test `/^(https?:\/\/|data:|file:\/\/)/i`. -/
def isUrlLikeString (s : String) : Bool :=
  let l := jsToLower s
  strStartsWith l "http://" || strStartsWith l "https://" ||
    strStartsWith l "data:" || strStartsWith l "file://"

/-- `toArtworkDataUri`: trims the data; empty stays empty; an already-URL-like
string passes through (trimmed); anything else is wrapped as a base64 data URI
with the trimmed MIME type, default `image/jpeg`. -/
def toArtworkDataUri (data mimeType : String) : String :=
  let raw := jsTrim data
  if raw == "" then ""
  else if isUrlLikeString raw then raw
  else
    let mime := if jsTrim mimeType == "" then "image/jpeg" else jsTrim mimeType
    "data:" ++ mime ++ ";base64," ++ raw

/-- The nested artwork-object candidate sub-keys, in order. -/
def nestedArtworkKeys : List String :=
  ["url", "src", "data", "image", "artwork_url", "artworkUrl"]

/-- The flat payload artwork candidate keys, in order. -/
def flatArtworkKeys : List String :=
  ["artwork_url", "artworkUrl", "artwork", "album_art_url", "albumArtUrl", "image", "thumbnail"]

/-- The nested-candidate loop of `readArtworkUrl`: the first sub-key holding a
string with non-empty trim, returned untrimmed. -/
def firstNestedArtwork (dataObject : Payload) : List String → Option String
  | [] => none
  | key :: rest =>
      match lookupField dataObject key with
      | some (.str v) =>
          if jsTrim v == "" then firstNestedArtwork dataObject rest else some v
      | _ => firstNestedArtwork dataObject rest

/-- The flat-candidate loop of `readArtworkUrl`: the first key whose
`readStringField` value is non-empty, returned as-is (already trimmed). -/
def firstFlatArtwork (payload : Option JsonVal) : List String → String
  | [] => ""
  | key :: rest =>
      let value := readStringField payload key
      if value == "" then firstFlatArtwork payload rest else value

/-- `readArtworkUrl`: inline base64 `artworkData` string first, then an
`artworkData` object searched by `nestedArtworkKeys` (with a sibling
`mimeType`), then the flat candidate keys, else `""`. -/
def readArtworkUrl (payload : Option JsonVal) : String :=
  let artworkMimeType :=
    if readStringField payload "artworkMimeType" == "" then "image/jpeg"
    else readStringField payload "artworkMimeType"
  let artworkData : Option JsonVal :=
    match payload with
    | some (.obj fields) => lookupField fields "artworkData"
    | _ => none
  let fromArtworkData : Option String :=
    match artworkData with
    | some (.str s) =>
        if jsTrim s == "" then none else some (toArtworkDataUri s artworkMimeType)
    | some (.obj dataObject) =>
        match firstNestedArtwork dataObject nestedArtworkKeys with
        | some v =>
            let nestedMime :=
              match lookupField dataObject "mimeType" with
              | some (.str m) => if jsTrim m == "" then artworkMimeType else jsTrim m
              | _ => artworkMimeType
            some (toArtworkDataUri v nestedMime)
        | none => none
    | _ => none
  match fromArtworkData with
  | some u => u
  | none => firstFlatArtwork payload flatArtworkKeys

/-! ## Display Reconciler (menu-bar command module) -/

/-- The `status` field of `NowPlayingState`. -/
inductive NowStatus where
  | ok
  | noTrack
  | missingMediaControl
  | unsupportedPlatform
  | error
deriving DecidableEq, Repr

/-- The Display Reconciler's `NowPlayingState`. -/
structure NowPlayingState where
  track : String
  artist : String
  album : String
  artworkUrl : String
  status : NowStatus
  error : Option String := none
deriving DecidableEq, Repr

/-- `defaultState()`: `no-track` on macOS, `unsupported-platform` elsewhere. -/
def defaultState (onDarwin : Bool) : NowPlayingState :=
  { track := "", artist := "", album := "", artworkUrl := "",
    status := if onDarwin then NowStatus.noTrack else NowStatus.unsupportedPlatform }

/-- The field-by-field comparison shared by the three state setters. -/
def statesEqual (a b : NowPlayingState) : Bool :=
  a.track == b.track && a.artist == b.artist && a.album == b.album &&
    a.artworkUrl == b.artworkUrl && a.status == b.status && a.error == b.error

/-- `setStateIfChanged`: keep the previous object when every compared field is
equal, else adopt `next`. -/
def setStateIfChanged (prev next : NowPlayingState) : NowPlayingState :=
  if statesEqual prev next then prev else next

/-- `setStatePreservingLastNowPlaying`: a held `ok` state with a non-empty
track is kept; otherwise behaves like `setStateIfChanged`. -/
def setStatePreservingLastNowPlaying (prev next : NowPlayingState) : NowPlayingState :=
  if prev.status == NowStatus.ok && prev.track != "" then prev
  else if statesEqual prev next then prev else next

/-- `writeCachedState`: mirrors the state to the durable `last-state` key only
when the status is `ok` and the track non-empty; `none` means no write. -/
def writeCachedState (state : NowPlayingState) : Option NowPlayingState :=
  if state.status != NowStatus.ok || state.track == "" then none
  else some state

/-- `setNowPlayingState`: resolves artwork (new artwork, else same-album
carry-over), defers the whole update when no artwork resolves while an `ok`
track is displayed, and otherwise commits the new `ok` state, mirroring it via
`writeCachedState`.  Returns the next state and the cache write performed. -/
def setNowPlayingState (prev : NowPlayingState)
    (track artist album artworkUrl : String) :
    NowPlayingState × Option NowPlayingState :=
  let sameAlbum := prev.album != "" && album != "" && prev.album == album
  let reusableArtwork := if sameAlbum then prev.artworkUrl else ""
  let resolvedArtworkUrl := if artworkUrl != "" then artworkUrl else reusableArtwork
  if resolvedArtworkUrl == "" && prev.status == NowStatus.ok && prev.track != "" then
    (prev, none)
  else
    let next : NowPlayingState :=
      { track := track, artist := artist, album := album,
        artworkUrl := resolvedArtworkUrl, status := NowStatus.ok, error := none }
    (if statesEqual prev next then prev else next, writeCachedState next)

/-- The artwork `setNowPlayingState` resolves: the new artwork if non-empty,
else the previous artwork when the album is unchanged, else empty. -/
def resolvedArtwork (prev : NowPlayingState) (album artworkUrl : String) : String :=
  if artworkUrl != "" then artworkUrl
  else if prev.album != "" && album != "" && prev.album == album then prev.artworkUrl
  else ""

/-- The `ok` state `setNowPlayingState` commits when it does not defer. -/
def committedState (prev : NowPlayingState) (track artist album artworkUrl : String) :
    NowPlayingState :=
  { track := track, artist := artist, album := album,
    artworkUrl := resolvedArtwork prev album artworkUrl,
    status := NowStatus.ok, error := none }

/-- `info.error || undefined`. -/
def errorOrNone : Option String → Option String
  | some s => if s == "" then none else some s
  | none => none

/-- One `refreshNowPlaying` cycle either yields the orchestrator's result or
throws. -/
inductive LookupOutcome where
  | result (info : MediaControlDebugInfo)
  | thrown (message : String)

/-- One `refreshNowPlaying` transition of the Display Reconciler: the next
state and the durable `last-state` cache write it performs (if any).  Off
macOS the refresh returns without touching the state (the in-flight guard that
drops overlapping refreshes is likewise an identity transition). -/
def refreshNowPlaying (onDarwin : Bool) (prev : NowPlayingState)
    (outcome : LookupOutcome) : NowPlayingState × Option NowPlayingState :=
  if !onDarwin then (prev, none)
  else
    match outcome with
    | .thrown message =>
        (setStatePreservingLastNowPlaying prev
          { track := "", artist := "", album := "", artworkUrl := "",
            status := NowStatus.error, error := some message }, none)
    | .result info =>
        let track := readStringField info.payload "title"
        let artist := readStringField info.payload "artist"
        let album := readStringField info.payload "album"
        let artworkUrl := readArtworkUrl info.payload
        if info.isNotInstalled then
          (setStateIfChanged prev
            { track := "", artist := "", album := "", artworkUrl := "",
              status := NowStatus.missingMediaControl,
              error := errorOrNone info.error }, none)
        else if track != "" then
          setNowPlayingState prev track artist album artworkUrl
        else if (match info.query with | some q => q != "" | none => false)
            || jsTruthy info.payload then
          (setStatePreservingLastNowPlaying prev
            { track := "", artist := "", album := "", artworkUrl := "",
              status := NowStatus.noTrack }, none)
        else
          (setStatePreservingLastNowPlaying prev
            { track := "", artist := "", album := "", artworkUrl := "",
              status := NowStatus.error, error := errorOrNone info.error }, none)

/-- The `DisplayState` invariant: an `ok` status implies a non-empty track. -/
def stateInvariant (s : NowPlayingState) : Prop :=
  s.status = NowStatus.ok → s.track ≠ ""

/-! ## Theorems -/

/-- The sample payload of the end-to-end property. -/
def samplePayload : JsonVal :=
  .obj [("title", .str "Song"), ("artist", .str "Artist"), ("album", .str "Album")]

/-- C5: a payload whose `album` field is absent, non-string, or empty after
trimming yields a `null` query for every lookup kind, even when title and
artist are present; the sample payload titled "Song" by "Artist" on "Album"
queries as "Song Artist" for the `track` kind and "Album" for the `album`
kind. -/
theorem query_requires_album :
    (∀ (fields : Payload) (kind : LookupKind),
        (lookupField fields "album" = none ∨
          (∃ s, lookupField fields "album" = some (.str s) ∧ jsTrim s = "") ∨
          (∀ s, lookupField fields "album" ≠ some (.str s))) →
        queryForLookupKind (some (.obj fields)) kind = none) ∧
    queryForLookupKind (some samplePayload) LookupKind.track = some "Song Artist" ∧
    queryForLookupKind (some samplePayload) LookupKind.album = some "Album" := by
  refine ⟨?_, rfl, rfl⟩
  intro fields kind h
  have hra : readStringField (some (.obj fields)) "album" = "" := by
    rcases h with h | ⟨s, hs, ht⟩ | h
    · simp [readStringField, h]
    · simp [readStringField, hs, ht]
    · rcases hv : lookupField fields "album" with _ | v
      · simp [readStringField, hv]
      · cases v with
        | str s => exact absurd hv (h s)
        | null => simp [readStringField, hv]
        | bool b => simp [readStringField, hv]
        | num n => simp [readStringField, hv]
        | arr xs => simp [readStringField, hv]
        | obj o => simp [readStringField, hv]
  simp [queryForLookupKind, hra]

/-- C5 witness: a payload with title and artist but no album is ineligible for
the `track` kind. -/
theorem query_requires_album_witness :
    queryForLookupKind
      (some (.obj [("title", JsonVal.str "Song"), ("artist", JsonVal.str "Artist")]))
      LookupKind.track = none :=
  query_requires_album.1 [("title", JsonVal.str "Song"), ("artist", JsonVal.str "Artist")]
    LookupKind.track (Or.inl rfl)

/-- The title/artist query is never the bare artist field. -/
lemma format_query_ne_artist (p : Option JsonVal) (q : String)
    (h : formatNowPlayingSearchQuery p = some q) :
    q ≠ readStringField p "artist" := by
  intro hq
  by_cases ht : readStringField p "title" = ""
  · simp [formatNowPlayingSearchQuery, ht] at h
  · by_cases ha : readStringField p "artist" = ""
    · simp [formatNowPlayingSearchQuery, ht, ha] at h
      exact ht (h.trans (hq.trans ha))
    · simp [formatNowPlayingSearchQuery, ht, ha] at h
      rw [hq] at h
      have hd := congrArg String.data h
      rw [String.data_append, String.data_append] at hd
      have hlen := congrArg List.length hd
      simp [List.length_append] at hlen
      omega

/-- C10: the `artist`-kind query coincides with the `track`-kind query for
every payload (title joined with artist, same album-and-title eligibility);
the artist name alone is never the `artist`-kind query. -/
theorem artist_query_eq_track_query :
    (∀ payload : Option JsonVal,
        queryForLookupKind payload LookupKind.artist =
          queryForLookupKind payload LookupKind.track) ∧
    (∀ (payload : Option JsonVal) (q : String),
        queryForLookupKind payload LookupKind.artist = some q →
        q ≠ readStringField payload "artist") := by
  constructor
  · intro payload
    rfl
  · intro payload q h
    have hf : formatNowPlayingSearchQuery payload = some q := by
      by_cases hal : readStringField payload "album" = ""
      · simp [queryForLookupKind, hal] at h
      · simpa [queryForLookupKind, hal] using h
    exact format_query_ne_artist payload q hf

/-- C10 witness: on the sample payload the `artist`-kind query "Song Artist"
differs from the artist field "Artist". -/
theorem artist_query_eq_track_query_witness :
    ("Song Artist" : String) ≠ readStringField (some samplePayload) "artist" :=
  artist_query_eq_track_query.2 (some samplePayload) "Song Artist" rfl

/-- C9 counterexample: on the input `" HTTPS://x "` (which starts with none of
the four literal prefixes and is non-empty) the code neither returns the
string unchanged nor wraps it as a base64 data URI: it trims it and matches
the URL prefix case-insensitively, returning `"HTTPS://x"`. -/
theorem artwork_uri_claim_counterexample :
    toArtworkDataUri " HTTPS://x " "" = "HTTPS://x" ∧
    strStartsWith " HTTPS://x " "http://" = false ∧
    strStartsWith " HTTPS://x " "https://" = false ∧
    strStartsWith " HTTPS://x " "data:" = false ∧
    strStartsWith " HTTPS://x " "file://" = false ∧
    " HTTPS://x " ≠ "" ∧
    toArtworkDataUri " HTTPS://x " "" ≠ " HTTPS://x " ∧
    toArtworkDataUri " HTTPS://x " "" ≠ "data:image/jpeg;base64, HTTPS://x " := by
  decide

/-- C9 amended: the input is trimmed first; a trimmed string starting
case-insensitively with `http://`, `https://`, `data:` or `file://` is
returned trimmed; any other string that is non-empty after trimming is
wrapped as `data:<mime>;base64,<trimmed input>` with the MIME type trimmed
and defaulting to `image/jpeg` when blank; in particular `"Zm9v"` with MIME
`image/png` normalizes to `data:image/png;base64,Zm9v` and an
`https://`-prefixed string passes through unchanged. -/
theorem artwork_uri_amended (data mimeType : String) :
    (isUrlLikeString (jsTrim data) = true →
      toArtworkDataUri data mimeType = jsTrim data) ∧
    (jsTrim data ≠ "" → isUrlLikeString (jsTrim data) = false →
      toArtworkDataUri data mimeType =
        "data:" ++ (if jsTrim mimeType == "" then "image/jpeg" else jsTrim mimeType) ++
          ";base64," ++ jsTrim data) ∧
    toArtworkDataUri "Zm9v" "image/png" = "data:image/png;base64,Zm9v" ∧
    toArtworkDataUri "https://a.example/cover.jpg" "" = "https://a.example/cover.jpg" := by
  refine ⟨?_, ?_, rfl, rfl⟩
  · intro h
    have hne : jsTrim data ≠ "" := by
      intro he
      rw [he] at h
      exact absurd h (by decide)
    simp [toArtworkDataUri, hne, h]
  · intro hne hnot
    simp [toArtworkDataUri, hne, hnot]

/-- C9 amended witness: a padded `file://` URL passes through trimmed; a
padded bare base64 string wraps with the default MIME type. -/
theorem artwork_uri_amended_witness :
    toArtworkDataUri "  file://a  " "x" = "file://a" ∧
    toArtworkDataUri " Zm9v " " " = "data:image/jpeg;base64,Zm9v" :=
  ⟨((artwork_uri_amended "  file://a  " "x").1 (by decide)).trans (by decide),
   ((artwork_uri_amended " Zm9v " " ").2.1 (by decide) (by decide)).trans (by decide)⟩

/-- C1 counterexample: with `{track:"A", album:"X", artworkUrl:"u1", status:ok}`
displayed and a new payload `track "B", album "X", empty artwork`, the next
state is not the prior state — the update is not deferred. -/
theorem antiflicker_claim_counterexample :
    (setNowPlayingState ⟨"A", "Old Artist", "X", "u1", NowStatus.ok, none⟩
        "B" "New Artist" "X" "").1 ≠
      ⟨"A", "Old Artist", "X", "u1", NowStatus.ok, none⟩ ∧
    (setNowPlayingState ⟨"A", "Old Artist", "X", "u1", NowStatus.ok, none⟩
        "B" "New Artist" "X" "").1 =
      ⟨"B", "New Artist", "X", "u1", NowStatus.ok, none⟩ := by
  decide

/-- C1 amended: with `{track:"A", album:"X", artworkUrl:"u1", status:ok}`
displayed and a new payload with track "B", the same album "X" and an empty
artwork string, the next displayed state is `{track:"B", album:"X",
artworkUrl:"u1"}` — the same-album artwork is carried over and the update
commits (and is mirrored to the cache); it is neither the deferred prior
state nor `{track:"B", artworkUrl:""}`. -/
theorem antiflicker_same_album_carries_artwork :
    setNowPlayingState ⟨"A", "Old Artist", "X", "u1", NowStatus.ok, none⟩
        "B" "New Artist" "X" "" =
      (⟨"B", "New Artist", "X", "u1", NowStatus.ok, none⟩,
        some ⟨"B", "New Artist", "X", "u1", NowStatus.ok, none⟩) ∧
    (setNowPlayingState ⟨"A", "Old Artist", "X", "u1", NowStatus.ok, none⟩
        "B" "New Artist" "X" "").1.artworkUrl ≠ "" := by
  decide

/-- `attemptFailed` on a failure. -/
lemma attemptFailed_failure (e : JsError) : attemptFailed (.failure e) = true := rfl

/-- `attemptNotFound` on a failure. -/
lemma attemptNotFound_failure (e : JsError) :
    attemptNotFound (.failure e) = isMissingBinaryError e := rfl

/-- A not-found-class failure is in particular a failure. -/
lemma attemptNotFound_imp_failed (o : AttemptOutcome) (h : attemptNotFound o = true) :
    attemptFailed o = true := by
  cases o with
  | success payload out errOut => simp [attemptNotFound] at h
  | failure e => rfl

/-- A filter keeps the whole list exactly when every element satisfies the
predicate. -/
lemma filter_length_eq_iff {α : Type _} (p : α → Bool) (l : List α) :
    ((l.filter p).length = l.length) ↔ ∀ a ∈ l, p a = true := by
  induction l with
  | nil => simp
  | cons a l ih =>
    cases ha : p a with
    | true => simp [List.filter_cons, ha, ih]
    | false =>
      simp only [List.filter_cons, ha, if_neg Bool.false_ne_true, List.length_cons]
      constructor
      · intro hcontra
        have := List.length_filter_le p l
        omega
      · intro hall
        exact absurd (hall a (List.mem_cons_self a l)) (by simp [ha])

/-- `all` over the second components of a zip with a long-enough first list. -/
lemma zip_all_snd {α β : Type _} (p : β → Bool) (l1 : List α) (l2 : List β)
    (h : l2.length ≤ l1.length) : (l1.zip l2).all (fun x => p x.2) = l2.all p := by
  induction l2 generalizing l1 with
  | nil => simp
  | cons b bs ih =>
    cases l1 with
    | nil => simp at h
    | cons a as =>
      simp only [List.zip_cons_cons, List.all_cons]
      rw [ih as (by simp at h; omega)]

/-- `filter` length over the second components of a zip with a long-enough
first list. -/
lemma zip_filter_snd_length {α β : Type _} (p : β → Bool) (l1 : List α) (l2 : List β)
    (h : l2.length ≤ l1.length) :
    ((l1.zip l2).filter (fun x => p x.2)).length = (l2.filter p).length := by
  induction l2 generalizing l1 with
  | nil => simp
  | cons b bs ih =>
    cases l1 with
    | nil => simp at h
    | cons a as =>
      simp only [List.zip_cons_cons, List.filter_cons]
      have ih2 := ih as (by simp at h; omega)
      by_cases hb : p b = true
      · simp [hb, ih2]
      · simp [hb, ih2]

/-- The candidate loop's `isNotInstalled` flag: true exactly when every
remaining attempt fails and the not-found failures seen so far plus the
not-found failures remaining add up to the candidate total. -/
lemma inspectLoop_isNotInstalled (rem : List (String × AttemptOutcome))
    (attempts : List String) (missing total : Nat) :
    (inspectLoop rem attempts missing total).isNotInstalled =
      (rem.all (fun x => attemptFailed x.2) &&
        (missing + (rem.filter (fun x => attemptNotFound x.2)).length == total)) := by
  induction rem generalizing attempts missing with
  | nil => simp [inspectLoop]
  | cons hd tl ih =>
    obtain ⟨bin, outcome⟩ := hd
    cases outcome with
    | success payload out errOut => simp [inspectLoop, attemptFailed]
    | failure e =>
      have hstep : inspectLoop ((bin, AttemptOutcome.failure e) :: tl) attempts missing total =
          inspectLoop tl (attempts ++ [bin ++ ": " ++ e.message])
            (missing + if isMissingBinaryError e then 1 else 0) total := rfl
      rw [hstep, ih, List.all_cons, List.filter_cons]
      simp only [attemptFailed_failure, attemptNotFound_failure, Bool.true_and]
      by_cases hm : isMissingBinaryError e = true
      · simp only [hm, if_true, List.length_cons]
        rw [Nat.add_assoc, Nat.add_comm 1]
      · simp [hm]

/-- C3: with all six candidates supplied, `notInstalled` is true exactly when
every candidate attempt failed with a not-found-class error; any failure of a
different class (for example permission denied) forces `notInstalled = false`. -/
theorem notInstalled_iff_all_not_found (outcomes : List AttemptOutcome)
    (h : outcomes.length = 6) :
    ((inspectNowPlaying true outcomes).isNotInstalled = true ↔
      ∀ o ∈ outcomes, attemptNotFound o = true) ∧
    (∀ e, AttemptOutcome.failure e ∈ outcomes → isMissingBinaryError e = false →
      (inspectNowPlaying true outcomes).isNotInstalled = false) := by
  have hcl : mediaControlCandidates.length = 6 := rfl
  have hle : outcomes.length ≤ mediaControlCandidates.length := by rw [h, hcl]
  have hkey : (inspectNowPlaying true outcomes).isNotInstalled =
      (outcomes.all attemptFailed && ((outcomes.filter attemptNotFound).length == 6)) := by
    show (inspectLoop (mediaControlCandidates.zip outcomes) [] 0
        mediaControlCandidates.length).isNotInstalled = _
    rw [inspectLoop_isNotInstalled, hcl]
    rw [zip_all_snd attemptFailed mediaControlCandidates outcomes hle,
      zip_filter_snd_length attemptNotFound mediaControlCandidates outcomes hle,
      Nat.zero_add]
  have hiff : (inspectNowPlaying true outcomes).isNotInstalled = true ↔
      ∀ o ∈ outcomes, attemptNotFound o = true := by
    rw [hkey]
    constructor
    · intro hm
      simp only [Bool.and_eq_true, beq_iff_eq] at hm
      obtain ⟨hall, hcnt⟩ := hm
      rw [← h] at hcnt
      exact (filter_length_eq_iff _ _).mp hcnt
    · intro hall
      have h1' : outcomes.all attemptFailed = true :=
        List.all_eq_true.mpr (fun x hx => attemptNotFound_imp_failed x (hall x hx))
      have h2' : (outcomes.filter attemptNotFound).length = 6 := by
        rw [← h]
        exact (filter_length_eq_iff _ _).mpr hall
      simp [h1', h2']
  refine ⟨hiff, ?_⟩
  intro e he hm
  cases hni : (inspectNowPlaying true outcomes).isNotInstalled
  · rfl
  · have hx := hiff.mp hni (AttemptOutcome.failure e) he
    simp only [attemptNotFound] at hx
    rw [hm] at hx
    exact Bool.noConfusion hx

/-- An attempt sequence in which every candidate is missing except the fifth,
which fails with a permission error. -/
def sampleFailureOutcomes : List AttemptOutcome :=
  [.failure ⟨"ENOENT", "spawn media-control ENOENT"⟩,
   .failure ⟨"ENOENT", "spawn /opt/homebrew/bin/media-control ENOENT"⟩,
   .failure ⟨"ENOENT", "spawn /usr/local/bin/media-control ENOENT"⟩,
   .failure ⟨"ENOENT", "spawn /opt/local/bin/media-control ENOENT"⟩,
   .failure ⟨"EACCES", "spawn /opt/homebrew/opt/media-control/bin/media-control EACCES"⟩,
   .failure ⟨"ENOENT", "spawn /usr/local/opt/media-control/bin/media-control ENOENT"⟩]

/-- C3 witness: one permission-denied failure among otherwise missing-binary
failures yields `notInstalled = false`. -/
theorem notInstalled_iff_all_not_found_witness :
    (inspectNowPlaying true sampleFailureOutcomes).isNotInstalled = false :=
  (notInstalled_iff_all_not_found sampleFailureOutcomes rfl).2
    ⟨"EACCES", "spawn /opt/homebrew/opt/media-control/bin/media-control EACCES"⟩
    (by simp [sampleFailureOutcomes])
    (by decide)

/-- C4: when the live payload is ineligible for the requested kind and the
caller did not opt into cache fallback, the orchestrator returns `query =
null` and `payload = null` (diagnostics forwarded) regardless of what the
cache holds; with the opt-in set, an eligible cache entry is returned
instead. -/
theorem ineligible_live_no_cache_fallback :
    (∀ (info : MediaControlDebugInfo) (cached : Option JsonVal) (kind : LookupKind)
        (lp : JsonVal),
        info.payload.bind asPayloadRecord = some lp →
        queryForLookupKind (some lp) kind = none →
        inspectNowPlayingForLookup info cached kind false =
          { info with payload := none, query := none }) ∧
    (∀ (info : MediaControlDebugInfo) (cp lp : JsonVal) (kind : LookupKind) (cq : String),
        info.payload.bind asPayloadRecord = some lp →
        queryForLookupKind (some lp) kind = none →
        queryForLookupKind (some cp) kind = some cq →
        inspectNowPlayingForLookup info (some cp) kind true =
          { info with payload := some cp, query := some cq }) := by
  constructor
  · intro info cached kind lp h1 h2
    simp [inspectNowPlayingForLookup, h1, h2]
  · intro info cp lp kind cq h1 h2 h3
    simp [inspectNowPlayingForLookup, h1, h2, h3]

/-- A probe result whose live payload has a title but no album, making it
ineligible for every lookup kind. -/
def sampleIneligibleInfo : MediaControlDebugInfo :=
  { query := none, stdout := "", stderr := "", error := none,
    payload := some (.obj [("title", .str "T")]), binary := some "media-control",
    attempts := [], isNotInstalled := false }

/-- C4 witness: the ineligible live payload is discarded without cache
fallback even though an eligible cached payload exists. -/
theorem ineligible_live_no_cache_fallback_witness :
    inspectNowPlayingForLookup sampleIneligibleInfo (some samplePayload)
        LookupKind.track false =
      { sampleIneligibleInfo with payload := none, query := none } :=
  ineligible_live_no_cache_fallback.1 sampleIneligibleInfo (some samplePayload)
    LookupKind.track (.obj [("title", .str "T")]) rfl rfl

/-- C8: the Eligibility Cache is total on errors — `save` swallows every
persistence failure and returns normally, and `load` returns `null` (never an
error) whenever the stored value is missing, not a string, malformed JSON, or
parses to a record without an object-shaped `payload` field. -/
theorem eligibility_cache_total_on_errors :
    (∀ (kind : LookupKind) (payload : Payload)
        (persist : LookupKind → Payload → Except String Unit),
        saveEligibleMedia kind payload persist = Except.ok ()) ∧
    (∀ g : GetItemOutcome, ∃ r, readEligibleMedia g = Except.ok r) ∧
    (∀ msg, readEligibleMedia (.threw msg) = .ok none) ∧
    readEligibleMedia .absent = .ok none ∧
    readEligibleMedia .nonString = .ok none ∧
    (∀ (s : String) (e : String), readEligibleMedia (.gotString s (.error e)) = .ok none) ∧
    (∀ (s : String) (fields : Payload),
        (∀ o, lookupField fields "payload" ≠ some (.obj o)) →
        (∀ xs, lookupField fields "payload" ≠ some (.arr xs)) →
        readEligibleMedia (.gotString s (.ok (.obj fields))) = .ok none) := by
  refine ⟨?_, ?_, fun msg => rfl, rfl, rfl,
    fun s e => by by_cases hs : s = "" <;> simp [readEligibleMedia, hs], ?_⟩
  · intro kind payload persist
    unfold saveEligibleMedia
    cases persist kind payload with
    | ok u => rfl
    | error e => rfl
  · intro g
    cases g with
    | threw msg => exact ⟨none, rfl⟩
    | absent => exact ⟨none, rfl⟩
    | nonString => exact ⟨none, rfl⟩
    | gotString s parsed =>
      by_cases hs : s = ""
      · exact ⟨none, by simp [readEligibleMedia, hs]⟩
      · cases parsed with
        | error e => exact ⟨none, by simp [readEligibleMedia, hs]⟩
        | ok v =>
          cases hb : (jsFalsy v || !jsTypeofObject v) with
          | true => exact ⟨none, by simp [readEligibleMedia, hs, hb]⟩
          | false =>
            cases v with
            | obj fields =>
              refine ⟨match lookupField fields "payload" with
                | some w => asPayloadRecord w
                | none => none, ?_⟩
              simp [readEligibleMedia, hs, hb]
            | null => exact ⟨none, by simp [readEligibleMedia, hs, hb]⟩
            | bool b => exact ⟨none, by simp [readEligibleMedia, hs, hb]⟩
            | num n => exact ⟨none, by simp [readEligibleMedia, hs, hb]⟩
            | str s2 => exact ⟨none, by simp [readEligibleMedia, hs, hb]⟩
            | arr xs => exact ⟨none, by simp [readEligibleMedia, hs, hb]⟩
  · intro s fields h1 h2
    have hb : (jsFalsy (JsonVal.obj fields) || !jsTypeofObject (JsonVal.obj fields)) = false := rfl
    by_cases hs : s = ""
    · simp [readEligibleMedia, hs]
    · simp only [readEligibleMedia, if_neg (by simpa using hs), hb, Bool.false_eq_true,
        if_neg (Bool.false_ne_true)]
      cases hv : lookupField fields "payload" with
      | none => simp [hv]
      | some w =>
        cases w with
        | obj o => exact absurd hv (h1 o)
        | arr xs => exact absurd hv (h2 xs)
        | null => simp [hv, asPayloadRecord, jsFalsy]
        | bool b => simp [hv, asPayloadRecord, jsFalsy, jsTypeofObject]
        | num n => simp [hv, asPayloadRecord, jsFalsy, jsTypeofObject]
        | str s2 => simp [hv, asPayloadRecord, jsFalsy, jsTypeofObject]

/-- C8 witness: a stored record whose `payload` field is a bare string loads
as `null`. -/
theorem eligibility_cache_total_on_errors_witness :
    readEligibleMedia (.gotString "rec" (.ok (.obj [("payload", JsonVal.str "x")]))) =
      .ok none :=
  eligibility_cache_total_on_errors.2.2.2.2.2.2 "rec" [("payload", JsonVal.str "x")]
    (fun _ h => JsonVal.noConfusion (Option.some.inj h))
    (fun _ h => JsonVal.noConfusion (Option.some.inj h))

/-- A held `ok` state with a non-empty track is never replaced by the
preserving setter. -/
lemma setStatePreserving_of_held (prev next : NowPlayingState)
    (hok : prev.status = NowStatus.ok) (htr : prev.track ≠ "") :
    setStatePreservingLastNowPlaying prev next = prev := by
  unfold setStatePreservingLastNowPlaying
  rw [if_pos (by simp [hok, htr])]

/-- `setStateIfChanged` yields the previous or the next state. -/
lemma setStateIfChanged_cases (prev next : NowPlayingState) :
    setStateIfChanged prev next = prev ∨ setStateIfChanged prev next = next := by
  unfold setStateIfChanged
  by_cases hc : statesEqual prev next = true
  · rw [if_pos hc]; exact Or.inl rfl
  · rw [if_neg hc]; exact Or.inr rfl

/-- The preserving setter yields the previous or the next state. -/
lemma setStatePreserving_cases (prev next : NowPlayingState) :
    setStatePreservingLastNowPlaying prev next = prev ∨
    setStatePreservingLastNowPlaying prev next = next := by
  unfold setStatePreservingLastNowPlaying
  by_cases h1 : (prev.status == NowStatus.ok && prev.track != "") = true
  · rw [if_pos h1]; exact Or.inl rfl
  · rw [if_neg h1]
    by_cases h2 : statesEqual prev next = true
    · rw [if_pos h2]; exact Or.inl rfl
    · rw [if_neg h2]; exact Or.inr rfl

/-- Whatever `writeCachedState` writes has status `ok` and a non-empty track. -/
lemma writeCachedState_some (s w : NowPlayingState) (h : writeCachedState s = some w) :
    w.status = NowStatus.ok ∧ w.track ≠ "" := by
  unfold writeCachedState at h
  by_cases hc : (s.status != NowStatus.ok || s.track == "") = true
  · rw [if_pos hc] at h
    exact Option.noConfusion h
  · rw [if_neg hc] at h
    injection h with h
    subst h
    simp only [Bool.or_eq_true, bne_iff_ne, beq_iff_eq, not_or, not_not] at hc
    exact ⟨hc.1, hc.2⟩

/-- `setNowPlayingState`, with its `const` bindings unfolded. -/
lemma setNowPlayingState_eq (prev : NowPlayingState) (t a al aw : String) :
    setNowPlayingState prev t a al aw =
      if (resolvedArtwork prev al aw == "" && prev.status == NowStatus.ok &&
          prev.track != "") = true
      then (prev, none)
      else (if statesEqual prev (committedState prev t a al aw) = true then prev
            else committedState prev t a al aw,
            writeCachedState (committedState prev t a al aw)) := rfl

/-- When the full anti-flicker defer condition holds, `setNowPlayingState`
returns the previous state and performs no cache write. -/
lemma setNowPlayingState_defer (prev : NowPlayingState) (t a al aw : String)
    (hd : (resolvedArtwork prev al aw == "" && prev.status == NowStatus.ok &&
      prev.track != "") = true) :
    setNowPlayingState prev t a al aw = (prev, none) := by
  rw [setNowPlayingState_eq, if_pos hd]

/-- `setNowPlayingState` either keeps the previous state or holds an `ok`
state carrying the new track. -/
lemma setNowPlayingState_fst_cases (prev : NowPlayingState) (t a al aw : String) :
    (setNowPlayingState prev t a al aw).1 = prev ∨
    ((setNowPlayingState prev t a al aw).1.status = NowStatus.ok ∧
      (setNowPlayingState prev t a al aw).1.track = t) := by
  rw [setNowPlayingState_eq]
  by_cases hd : (resolvedArtwork prev al aw == "" && prev.status == NowStatus.ok &&
      prev.track != "") = true
  · rw [if_pos hd]; exact Or.inl rfl
  · rw [if_neg hd]
    by_cases hs : statesEqual prev (committedState prev t a al aw) = true
    · rw [if_pos hs]; exact Or.inl rfl
    · rw [if_neg hs]; exact Or.inr ⟨rfl, rfl⟩

/-- `setNowPlayingState` either keeps the previous state or commits a state
whose artwork is the resolved artwork. -/
lemma setNowPlayingState_fst_artwork (prev : NowPlayingState) (t a al aw : String) :
    (setNowPlayingState prev t a al aw).1 = prev ∨
    (setNowPlayingState prev t a al aw).1.artworkUrl = resolvedArtwork prev al aw := by
  rw [setNowPlayingState_eq]
  by_cases hd : (resolvedArtwork prev al aw == "" && prev.status == NowStatus.ok &&
      prev.track != "") = true
  · rw [if_pos hd]; exact Or.inl rfl
  · rw [if_neg hd]
    by_cases hs : statesEqual prev (committedState prev t a al aw) = true
    · rw [if_pos hs]; exact Or.inl rfl
    · rw [if_neg hs]; exact Or.inr rfl

/-- A cache write of `setNowPlayingState` has status `ok` and a non-empty
track. -/
lemma setNowPlayingState_snd_some (prev : NowPlayingState) (t a al aw : String)
    (w : NowPlayingState) (h : (setNowPlayingState prev t a al aw).2 = some w) :
    w.status = NowStatus.ok ∧ w.track ≠ "" := by
  rw [setNowPlayingState_eq] at h
  by_cases hd : (resolvedArtwork prev al aw == "" && prev.status == NowStatus.ok &&
      prev.track != "") = true
  · rw [if_pos hd] at h
    exact Option.noConfusion h
  · rw [if_neg hd] at h
    exact writeCachedState_some _ _ h

/-- C2: while an `ok` state with a non-empty track is displayed, a lookup
that yields no track (and is not a not-installed result) or throws leaves the
state exactly as it was, with no cache write; more generally no refresh
transition moves a held `ok` state to `no-track` or `error`. -/
theorem ok_state_preserved_on_no_track_or_error :
    (∀ (prev : NowPlayingState) (outcome : LookupOutcome),
        prev.status = NowStatus.ok → prev.track ≠ "" →
        (match outcome with
          | .thrown _ => True
          | .result info =>
              info.isNotInstalled = false ∧ readStringField info.payload "title" = "") →
        refreshNowPlaying true prev outcome = (prev, none)) ∧
    (∀ (onDarwin : Bool) (prev : NowPlayingState) (outcome : LookupOutcome),
        prev.status = NowStatus.ok → prev.track ≠ "" →
        (refreshNowPlaying onDarwin prev outcome).1.status ≠ NowStatus.noTrack ∧
        (refreshNowPlaying onDarwin prev outcome).1.status ≠ NowStatus.error) := by
  constructor
  · intro prev outcome hok htr hcase
    have hpres : ∀ next, setStatePreservingLastNowPlaying prev next = prev :=
      fun next => setStatePreserving_of_held prev next hok htr
    cases outcome with
    | thrown message => simp [refreshNowPlaying, hpres]
    | result info =>
      obtain ⟨hni, htitle⟩ := hcase
      simp [refreshNowPlaying, hni, htitle, hpres]
  · intro onDarwin prev outcome hok htr
    cases onDarwin with
    | false =>
      have hprev : (refreshNowPlaying false prev outcome).1 = prev := rfl
      refine ⟨?_, ?_⟩ <;> (rw [hprev, hok]; decide)
    | true =>
      have hpres : ∀ next, setStatePreservingLastNowPlaying prev next = prev :=
        fun next => setStatePreserving_of_held prev next hok htr
      cases outcome with
      | thrown message =>
        have hr : refreshNowPlaying true prev (.thrown message) = (prev, none) := by
          simp [refreshNowPlaying, hpres]
        refine ⟨?_, ?_⟩ <;> simp [hr, hok]
      | result info =>
        by_cases hni : info.isNotInstalled = true
        · have hr : refreshNowPlaying true prev (.result info) =
              (setStateIfChanged prev
                ⟨"", "", "", "", NowStatus.missingMediaControl, errorOrNone info.error⟩,
                none) := by
            simp [refreshNowPlaying, hni]
          rcases setStateIfChanged_cases prev
              ⟨"", "", "", "", NowStatus.missingMediaControl, errorOrNone info.error⟩ with
            hc | hc
          · refine ⟨?_, ?_⟩ <;> simp [hr, hc, hok]
          · refine ⟨?_, ?_⟩ <;> simp [hr, hc]
        · by_cases htr2 : readStringField info.payload "title" = ""
          · have hr : refreshNowPlaying true prev (.result info) = (prev, none) := by
              simp [refreshNowPlaying, hni, htr2, hpres]
            refine ⟨?_, ?_⟩ <;> simp [hr, hok]
          · have hr : refreshNowPlaying true prev (.result info) =
                setNowPlayingState prev (readStringField info.payload "title")
                  (readStringField info.payload "artist")
                  (readStringField info.payload "album") (readArtworkUrl info.payload) := by
              simp [refreshNowPlaying, hni, htr2]
            rcases setNowPlayingState_fst_cases prev (readStringField info.payload "title")
                (readStringField info.payload "artist") (readStringField info.payload "album")
                (readArtworkUrl info.payload) with hc | ⟨hs, hmm⟩
            · refine ⟨?_, ?_⟩ <;> simp [hr, hc, hok]
            · refine ⟨?_, ?_⟩ <;> simp [hr, hs]

/-- The held display state of the witnesses. -/
def heldState : NowPlayingState :=
  ⟨"A", "ArtistA", "X", "u1", NowStatus.ok, none⟩

/-- An orchestrator result with no payload, no query and a probe error. -/
def noTrackInfo : MediaControlDebugInfo :=
  { query := none, stdout := "", stderr := "", error := some "exit 1",
    payload := none, binary := none,
    attempts := ["media-control: exit 1"], isNotInstalled := false }

/-- C2 witness: a no-track/error lookup leaves the held state untouched. -/
theorem ok_state_preserved_witness :
    refreshNowPlaying true heldState (.result noTrackInfo) = (heldState, none) :=
  ok_state_preserved_on_no_track_or_error.1 heldState (.result noTrackInfo)
    rfl (by decide) ⟨rfl, rfl⟩

/-- C6: when a new eligible lookup resolves no artwork at all (none supplied
and none reusable from the same album) while an `ok` track is displayed, the
whole update is deferred — the previous state is kept and nothing is written;
conversely a change of displayed state only happens when the resolved artwork
is non-empty or nothing was displayed. -/
theorem defer_update_without_artwork :
    (∀ (prev : NowPlayingState) (track artist album : String),
        prev.status = NowStatus.ok → prev.track ≠ "" →
        ((prev.album = album ∧ prev.album ≠ "" ∧ album ≠ "") → prev.artworkUrl = "") →
        setNowPlayingState prev track artist album "" = (prev, none)) ∧
    (∀ (prev : NowPlayingState) (track artist album artworkUrl : String),
        (setNowPlayingState prev track artist album artworkUrl).1 ≠ prev →
        (setNowPlayingState prev track artist album artworkUrl).1.artworkUrl ≠ "" ∨
          ¬(prev.status = NowStatus.ok ∧ prev.track ≠ "")) := by
  constructor
  · intro prev t a al hok htr hcarry
    have hres : resolvedArtwork prev al "" = "" := by
      unfold resolvedArtwork
      rw [if_neg (by simp)]
      by_cases hsame : (prev.album != "" && al != "" && prev.album == al) = true
      · rw [if_pos hsame]
        refine hcarry ?_
        simp only [Bool.and_eq_true, bne_iff_ne, beq_iff_eq] at hsame
        exact ⟨hsame.2, hsame.1.1, hsame.1.2⟩
      · rw [if_neg hsame]
    exact setNowPlayingState_defer prev t a al "" (by simp [hres, hok, htr])
  · intro prev t a al aw hne
    by_cases hres : (resolvedArtwork prev al aw == "") = true
    · right
      rintro ⟨hok, htr⟩
      apply hne
      rw [setNowPlayingState_defer prev t a al aw (by simp [hres, hok, htr])]
    · left
      rcases setNowPlayingState_fst_artwork prev t a al aw with hc | hc
      · exact absurd hc hne
      · rw [hc]
        intro hcon
        exact hres (by simp [hcon])

/-- C6 witness: a new track on a different album with no artwork is deferred
while "A" is displayed. -/
theorem defer_update_without_artwork_witness :
    setNowPlayingState heldState "B" "ArtistB" "Y" "" = (heldState, none) :=
  defer_update_without_artwork.1 heldState "B" "ArtistB" "Y" rfl (by decide)
    (fun hcon => absurd hcon.1 (by decide))

/-- C7: the invariant "status `ok` implies non-empty track" holds of the
default state and is preserved by every refresh transition; the durable
`last-state` key is written only with `ok` states carrying a non-empty track
(hence every written state satisfies the invariant), both for
`writeCachedState` itself and along any refresh transition. -/
theorem display_state_invariant :
    (∀ onDarwin : Bool, stateInvariant (defaultState onDarwin)) ∧
    (∀ (onDarwin : Bool) (prev : NowPlayingState) (outcome : LookupOutcome),
        stateInvariant prev → stateInvariant (refreshNowPlaying onDarwin prev outcome).1) ∧
    (∀ s w : NowPlayingState, writeCachedState s = some w →
        w.status = NowStatus.ok ∧ w.track ≠ "") ∧
    (∀ (onDarwin : Bool) (prev : NowPlayingState) (outcome : LookupOutcome)
        (w : NowPlayingState),
        (refreshNowPlaying onDarwin prev outcome).2 = some w →
        w.status = NowStatus.ok ∧ w.track ≠ "") := by
  refine ⟨?_, ?_, writeCachedState_some, ?_⟩
  · intro onDarwin
    cases onDarwin <;> (intro hcon; simp [defaultState] at hcon)
  · intro onDarwin prev outcome hinv
    cases onDarwin with
    | false => exact hinv
    | true =>
      cases outcome with
      | thrown message =>
        rcases setStatePreserving_cases prev
            ⟨"", "", "", "", NowStatus.error, some message⟩ with hc | hc
        · have hr : (refreshNowPlaying true prev (.thrown message)).1 = prev := by
            simp [refreshNowPlaying, hc]
          rw [hr]; exact hinv
        · have hr : (refreshNowPlaying true prev (.thrown message)).1 =
              ⟨"", "", "", "", NowStatus.error, some message⟩ := by
            simp [refreshNowPlaying, hc]
          rw [hr]; intro hcon; exact NowStatus.noConfusion hcon
      | result info =>
        by_cases hni : info.isNotInstalled = true
        · rcases setStateIfChanged_cases prev
              ⟨"", "", "", "", NowStatus.missingMediaControl, errorOrNone info.error⟩ with
            hc | hc
          · have hr : (refreshNowPlaying true prev (.result info)).1 = prev := by
              simp [refreshNowPlaying, hni, hc]
            rw [hr]; exact hinv
          · have hr : (refreshNowPlaying true prev (.result info)).1 =
                ⟨"", "", "", "", NowStatus.missingMediaControl, errorOrNone info.error⟩ := by
              simp [refreshNowPlaying, hni, hc]
            rw [hr]; intro hcon; exact NowStatus.noConfusion hcon
        · by_cases htr2 : readStringField info.payload "title" = ""
          · by_cases hq3 : ((match info.query with | some q => q != "" | none => false)
                || jsTruthy info.payload) = true
            · rcases setStatePreserving_cases prev
                  ⟨"", "", "", "", NowStatus.noTrack, none⟩ with hc | hc
              · have hr : (refreshNowPlaying true prev (.result info)).1 = prev := by
                  simp [refreshNowPlaying, hni, htr2, hq3, hc]
                rw [hr]; exact hinv
              · have hr : (refreshNowPlaying true prev (.result info)).1 =
                    ⟨"", "", "", "", NowStatus.noTrack, none⟩ := by
                  simp [refreshNowPlaying, hni, htr2, hq3, hc]
                rw [hr]; intro hcon; exact NowStatus.noConfusion hcon
            · rcases setStatePreserving_cases prev
                  ⟨"", "", "", "", NowStatus.error, errorOrNone info.error⟩ with hc | hc
              · have hr : (refreshNowPlaying true prev (.result info)).1 = prev := by
                  simp [refreshNowPlaying, hni, htr2, hq3, hc]
                rw [hr]; exact hinv
              · have hr : (refreshNowPlaying true prev (.result info)).1 =
                    ⟨"", "", "", "", NowStatus.error, errorOrNone info.error⟩ := by
                  simp [refreshNowPlaying, hni, htr2, hq3, hc]
                rw [hr]; intro hcon; exact NowStatus.noConfusion hcon
          · have hr : (refreshNowPlaying true prev (.result info)).1 =
                (setNowPlayingState prev (readStringField info.payload "title")
                  (readStringField info.payload "artist")
                  (readStringField info.payload "album") (readArtworkUrl info.payload)).1 := by
              simp [refreshNowPlaying, hni, htr2]
            rw [hr]
            rcases setNowPlayingState_fst_cases prev (readStringField info.payload "title")
                (readStringField info.payload "artist") (readStringField info.payload "album")
                (readArtworkUrl info.payload) with hc | ⟨hs, htk⟩
            · rw [hc]; exact hinv
            · intro hcon
              rw [htk]
              exact htr2
  · intro onDarwin prev outcome w hw
    cases onDarwin with
    | false => simp [refreshNowPlaying] at hw
    | true =>
      cases outcome with
      | thrown message => simp [refreshNowPlaying] at hw
      | result info =>
        by_cases hni : info.isNotInstalled = true
        · simp [refreshNowPlaying, hni] at hw
        · by_cases htr2 : readStringField info.payload "title" = ""
          · by_cases hq3 : ((match info.query with | some q => q != "" | none => false)
                || jsTruthy info.payload) = true
            · simp [refreshNowPlaying, hni, htr2, hq3] at hw
            · simp [refreshNowPlaying, hni, htr2, hq3] at hw
          · have hr : (refreshNowPlaying true prev (.result info)).2 =
                (setNowPlayingState prev (readStringField info.payload "title")
                  (readStringField info.payload "artist")
                  (readStringField info.payload "album") (readArtworkUrl info.payload)).2 := by
              simp [refreshNowPlaying, hni, htr2]
            rw [hr] at hw
            exact setNowPlayingState_snd_some _ _ _ _ _ _ hw

/-- An orchestrator result carrying the sample payload. -/
def commitInfo : MediaControlDebugInfo :=
  { query := some "Song Artist", stdout := "", stderr := "", error := none,
    payload := some samplePayload, binary := some "media-control",
    attempts := [], isNotInstalled := false }

/-- C7 witness: a refresh from the default state on the sample payload yields
an invariant-holding state. -/
theorem display_state_invariant_witness :
    stateInvariant (refreshNowPlaying true (defaultState true) (.result commitInfo)).1 :=
  display_state_invariant.2.1 true (defaultState true) (.result commitInfo)
    (display_state_invariant.1 true)

end NowPlaying
